import Mathlib

/-!
Verification of the Matching and Dispatch Orchestration Engine of the
Emergency Crisis Triage system.

The repository ships the engine specification, its API documentation and the
React dashboard, but the backend Python services themselves
(`backend/app/services/resource_matching.py`, `triage_service.py`,
`routes.py`, `schemas.py`) are not present in the tree.  The engine
definitions below are therefore modelled from the specification
(sections 3 to 7), as faithfully as its words allow; the frontend pieces
(the TriagePage demo-fallback variant) are embedded directly from the
JSX source.  Scores and weights are represented as exact rationals.
-/

namespace Triage

/-- Modelled from the spec: availability state of a `Resource` (section 3);
the backend schema module is not in the tree. -/
inductive Availability where
  | available
  | deployed
  | unavailable
deriving DecidableEq

/-- Modelled from the spec: one typed need of a `NeedRequest` (section 3). -/
structure NeedItem where
  needType : String
  quantity : Option Nat
  confidence : ℚ
deriving DecidableEq

/-- Modelled from the spec: immutable `NeedRequest` record (section 3);
the backend schema module is not in the tree.  Location is abstracted to
whether it was resolved; per-resource great-circle distances are carried on
the resources. -/
structure NeedRequest where
  id : String
  needs : List NeedItem
  peopleAffected : Option Nat
  locationResolved : Bool
  urgency : ℚ
  extractionConfidence : ℚ
deriving DecidableEq

/-- Modelled from the spec: mutable `Resource` record (section 3).
`distKm` is the great-circle distance from the request location to the
resource, `none` when either location is unresolved. -/
structure Resource where
  id : String
  rtype : String
  capabilities : List String
  availability : Availability
  capacity : Nat
  committedLoad : Nat
  verified : Bool
  distKm : Option ℚ
deriving DecidableEq

/-- Remaining (uncommitted) capacity of a resource. -/
def Resource.remaining (r : Resource) : Nat :=
  r.capacity - r.committedLoad

/-- Modelled from the spec: Resource Registry Accessor `candidates` contract
(section 4.1), filtered to `verified == true` and `availability !=
unavailable`; fully committed resources are excluded unless over-capacity
candidates are explicitly requested.  The needs argument is part of the
contract signature; the filter itself is on eligibility.  The backend
registry module is not in the tree. -/
def candidates (registry : List Resource) (needs : List String)
    (overCapacity : Bool) : List Resource :=
  let _ := needs
  registry.filter fun r =>
    r.verified && !(r.availability == Availability.unavailable)
      && (overCapacity || r.remaining > 0)

/-- Confidence label of a match candidate. -/
inductive Confidence where
  | low
  | medium
  | high
deriving DecidableEq

/-- Which scoring path produced a candidate. -/
inductive ScoreSource where
  | rule_based
  | ai_assisted
deriving DecidableEq

/-- Modelled from the spec: derived `MatchCandidate` (section 3). -/
structure MatchCandidate where
  resourceId : String
  suitability : ℚ
  availability : ℚ
  capacity : ℚ
  distance : ℚ
  finalScore : ℚ
  reasoning : List String
  tradeOffs : List String
  confidence : Confidence
  source : ScoreSource
deriving DecidableEq

/-- Modelled from the spec: per-factor weight configuration (section 4.2);
weights are configuration, not hard-coded constants. -/
structure MatchWeights where
  suitability : ℚ
  availability : ℚ
  capacity : ℚ
  distance : ℚ
deriving DecidableEq

/-- Default weights: suitability 0.40, availability 0.30, capacity 0.15,
distance 0.15. -/
def defaultWeights : MatchWeights :=
  { suitability := 2/5, availability := 3/10, capacity := 3/20, distance := 3/20 }

/-- Startup validation predicate for the weight configuration: the four
weights must sum to 1.0 (fatal otherwise, section 4.2). -/
def weightsValid (w : MatchWeights) : Prop :=
  w.suitability + w.availability + w.capacity + w.distance = 1

/-- Modelled from the spec: engine configuration surface (section 6). -/
structure EngineConfig where
  weights : MatchWeights
  aiEnabled : Bool
  minConfidence : ℚ
  confidenceFloor : ℚ
  nearKm : ℚ
  farKm : ℚ
deriving DecidableEq

/-- Need types requested by a request. -/
def needTypes (req : NeedRequest) : List String :=
  req.needs.map fun n => n.needType

/-- Number of requested need types present in a capability tag set. -/
def countMatched (needs caps : List String) : Nat :=
  (needs.filter fun n => caps.contains n).length

/-- Modelled from the spec: suitability component, the fraction of requested
need types present in the capability tag set (section 4.2). -/
def suitabilityScore (req : NeedRequest) (r : Resource) : ℚ :=
  let ns := needTypes req
  if ns.length = 0 then 1 else (countMatched ns r.capabilities : ℚ) / ns.length

/-- True when the request has needs and the resource covers none of them;
such a resource is excluded from scoring entirely (section 4.2). -/
def zeroOverlap (req : NeedRequest) (r : Resource) : Bool :=
  !(needTypes req).isEmpty && countMatched (needTypes req) r.capabilities == 0

/-- Modelled from the spec: availability component, 1.0 if available, 0.4 if
deployed with spare capacity, 0.0 otherwise (section 4.2). -/
def availabilityScore (r : Resource) : ℚ :=
  match r.availability with
  | Availability.available => 1
  | Availability.deployed => if r.remaining > 0 then 2/5 else 0
  | Availability.unavailable => 0

/-- Modelled from the spec: capacity component, min(1, remaining capacity
over people affected), defaulting to 1.0 when people affected is unknown
(section 4.2). -/
def capacityScore (req : NeedRequest) (r : Resource) : ℚ :=
  match req.peopleAffected with
  | none => 1
  | some p => if p = 0 then 1 else min 1 ((r.remaining : ℚ) / p)

/-- Modelled from the spec: distance component, saturating at 1.0 below the
near threshold and 0.0 above the far threshold, linear in between; a fixed
neutral 0.5 when either location is unresolved (section 4.2). -/
def distanceScore (cfg : EngineConfig) (d : Option ℚ) : ℚ :=
  match d with
  | none => 1/2
  | some dk =>
      if dk ≤ cfg.nearKm then 1
      else if cfg.farKm ≤ dk then 0
      else (cfg.farKm - dk) / (cfg.farKm - cfg.nearKm)

/-- Confidence label derived from the final score. -/
def confidenceOf (s : ℚ) : Confidence :=
  if 3/4 ≤ s then Confidence.high
  else if 1/2 ≤ s then Confidence.medium
  else Confidence.low

/-- Modelled from the spec: Rule-Based Scorer scoring of one resource
(section 4.2); the final score is the weighted sum of the four component
scores. -/
def scoreResource (cfg : EngineConfig) (req : NeedRequest) (r : Resource) :
    MatchCandidate :=
  let s := suitabilityScore req r
  let a := availabilityScore r
  let c := capacityScore req r
  let d := distanceScore cfg r.distKm
  let f := cfg.weights.suitability * s + cfg.weights.availability * a
    + cfg.weights.capacity * c + cfg.weights.distance * d
  { resourceId := r.id
    suitability := s
    availability := a
    capacity := c
    distance := d
    finalScore := f
    reasoning :=
      (if r.distKm.isNone then ["distance unresolved, neutral value assumed"]
       else []) ++ ["weighted multi-factor score"]
    tradeOffs := []
    confidence := confidenceOf f
    source := ScoreSource.rule_based }

/-- Ranking order on match candidates: descending final score, ties broken
by resource identifier ascending (sections 3 and 4.2). -/
def candBefore (a b : MatchCandidate) : Prop :=
  b.finalScore < a.finalScore
    ∨ (a.finalScore = b.finalScore ∧ a.resourceId ≤ b.resourceId)

instance : DecidableRel candBefore := fun a b => by
  unfold candBefore; infer_instance

instance : IsTotal MatchCandidate candBefore where
  total a b := by
    unfold candBefore
    rcases lt_trichotomy a.finalScore b.finalScore with h | h | h
    · exact Or.inr (Or.inl h)
    · rcases le_total a.resourceId b.resourceId with hs | hs
      · exact Or.inl (Or.inr ⟨h, hs⟩)
      · exact Or.inr (Or.inr ⟨h.symm, hs⟩)
    · exact Or.inl (Or.inl h)

instance : IsTrans MatchCandidate candBefore where
  trans a b c hab hbc := by
    unfold candBefore at hab hbc ⊢
    rcases hab with h1 | ⟨e1, s1⟩
    · rcases hbc with h2 | ⟨e2, _⟩
      · exact Or.inl (h2.trans h1)
      · exact Or.inl (e2 ▸ h1)
    · rcases hbc with h2 | ⟨e2, s2⟩
      · exact Or.inl (lt_of_lt_of_le h2 (le_of_eq e1.symm))
      · exact Or.inr ⟨e1.trans e2, s1.trans s2⟩

/-- Modelled from the spec: the deterministic Rule-Based Scorer
(section 4.2): score every candidate with any capability overlap, sort
descending by final score with ties broken by resource identifier
ascending.  The backend matching module is not in the tree. -/
def ruleBasedScorer (cfg : EngineConfig) (req : NeedRequest)
    (rs : List Resource) : List MatchCandidate :=
  List.insertionSort candBefore
    ((rs.filter fun r => !(zeroOverlap req r)).map (scoreResource cfg req))

/-- Matching path selection mode (section 4.4). -/
inductive MatchMode where
  | auto
  | forced_ai
  | forced_rule
deriving DecidableEq

/-- Hard failure modes of the external reasoning call: timeout or
malformed/unparseable output (section 4.3).  The confidence floor is
checked on the parsed response. -/
inductive AiFailure where
  | timeout
  | malformed
deriving DecidableEq

/-- Modelled from the spec: parsed response of the external reasoning
service (sections 4.3 and 6). -/
structure AiResponse where
  recommendations : List MatchCandidate
  overallConfidence : ℚ
deriving DecidableEq

/-- Audit-note text for a dropped AI candidate. -/
def droppedNote (rid : String) : String :=
  "dropped unknown resource " ++ rid

/-- Modelled from the spec: validation of AI-origin candidates against the
original candidate-identifier set (sections 4.3 and 9); a candidate whose
resource identifier is not in the input set is rejected and dropped with an
audit note. -/
def validateAiCandidates (inputIds : List String)
    (cs : List MatchCandidate) : List MatchCandidate × List String :=
  (cs.filter fun c => inputIds.contains c.resourceId,
   (cs.filter fun c => !(inputIds.contains c.resourceId)).map
     fun c => droppedNote c.resourceId)

/-- Fallback reason recorded when the AI path fails hard. -/
def fallbackReasonText : AiFailure → String
  | AiFailure.timeout => "ai path timeout"
  | AiFailure.malformed => "ai path returned malformed output"

/-- Modelled from the spec: condition under which the Coordinator uses the
Rule-Based Scorer exclusively (section 4.4 step 1): forced rule mode, AI
assistance disabled, or extraction confidence below the minimum. -/
def useRulePath (cfg : EngineConfig) (mode : MatchMode)
    (req : NeedRequest) : Prop :=
  mode = MatchMode.forced_rule ∨ cfg.aiEnabled = false
    ∨ req.extractionConfidence < cfg.minConfidence

instance (cfg : EngineConfig) (mode : MatchMode) (req : NeedRequest) :
    Decidable (useRulePath cfg mode req) := by
  unfold useRulePath; infer_instance

/-- Modelled from the spec: persisted `RequestDecision` (section 3), with
the fallback reason of its audit entry (sections 4.4 and 4.6). -/
structure RequestDecision where
  requestId : String
  candidates : List MatchCandidate
  path : ScoreSource
  human_action_required : Bool
  fallbackReason : Option String
  auditNotes : List String
deriving DecidableEq

/-- Modelled from the spec: the Matching Coordinator `match` operation
(section 4.4), a pure function from the request, the candidate set and the
outcome of the external reasoning call to a `RequestDecision`.  The backend
matching module is not in the tree. -/
def matchDecision (cfg : EngineConfig) (mode : MatchMode) (req : NeedRequest)
    (cands : List Resource) (ai : Except AiFailure AiResponse) :
    RequestDecision :=
  let ruleCands := ruleBasedScorer cfg req cands
  if useRulePath cfg mode req then
    { requestId := req.id
      candidates := ruleCands
      path := ScoreSource.rule_based
      human_action_required := true
      fallbackReason := none
      auditNotes := [] }
  else
    match ai with
    | Except.error f =>
        { requestId := req.id
          candidates := ruleCands
          path := ScoreSource.rule_based
          human_action_required := true
          fallbackReason := some (fallbackReasonText f)
          auditNotes := [] }
    | Except.ok resp =>
        if resp.overallConfidence < cfg.confidenceFloor then
          { requestId := req.id
            candidates := ruleCands
            path := ScoreSource.rule_based
            human_action_required := true
            fallbackReason := some ("ai confidence below floor")
            auditNotes := [] }
        else
          let v := validateAiCandidates (cands.map fun r => r.id)
            resp.recommendations
          { requestId := req.id
            candidates := v.1
            path := ScoreSource.ai_assisted
            human_action_required := true
            fallbackReason := none
            auditNotes := v.2 }

/-- Modelled from the spec: lifecycle state of a request (sections 3 and
4.5); the backend lifecycle module is not in the tree. -/
inductive ReqState where
  | pending
  | processing
  | dispatched
  | cancelled
deriving DecidableEq

/-- Modelled from the spec: engine error taxonomy (section 7), restricted to
the request-time errors the lifecycle operations can raise. -/
inductive TriageError where
  | NoCandidatesError
  | ResourceNoLongerAvailableError
  | InvalidStateTransitionError
deriving DecidableEq

/-- One immutable audit record (section 4.6). -/
structure AuditRecord where
  requestId : String
  action : String
deriving DecidableEq

/-- Modelled from the spec: per-request lifecycle record held by the
Request Lifecycle State Machine (section 4.5), together with its
append-only audit log (section 4.6). -/
structure LifecycleRequest where
  id : String
  state : ReqState
  decision : Option RequestDecision
  audit : List AuditRecord
deriving DecidableEq

/-- A resource is still eligible at confirmation time: verified, not
unavailable, and with remaining capacity (sections 4.5 and 9). -/
def eligible (r : Resource) : Bool :=
  r.verified && !(r.availability == Availability.unavailable)
    && r.remaining > 0

/-- Registry commit intent applied on dispatch: increase the committed load
of the named resource by the given delta (sections 3 and 6). -/
def commitResource (registry : List Resource) (rid : String) (delta : Nat) :
    List Resource :=
  registry.map fun r =>
    if r.id = rid then { r with committedLoad := r.committedLoad + delta }
    else r

/-- Committed delta for a request: its people-affected count, one team
otherwise. -/
def commitDelta (req : NeedRequest) : Nat :=
  match req.peopleAffected with
  | some p => p
  | none => 1

/-- Modelled from the spec: the `pending → processing` transition
(section 4.5), triggered by the Coordinator producing a decision; fails
with `NoCandidatesError` on an empty candidate list, the request staying
`pending` while the Audit Recorder still writes an entry (section 8). -/
def produceDecision (lr : LifecycleRequest) (d : RequestDecision) :
    LifecycleRequest × Option TriageError :=
  if lr.state = ReqState.pending then
    if d.candidates.isEmpty then
      ({ lr with audit := lr.audit ++ [⟨lr.id, "no candidates"⟩] },
       some TriageError.NoCandidatesError)
    else
      ({ lr with
          state := ReqState.processing
          decision := some d
          audit := lr.audit ++ [⟨lr.id, "decision produced"⟩] }, none)
  else (lr, some TriageError.InvalidStateTransitionError)

/-- Outcome of a confirmation attempt: the resulting lifecycle record, the
resulting registry, and the error, if any.  On error the record and the
registry are returned unchanged. -/
structure ConfirmOutcome where
  request : LifecycleRequest
  registry : List Resource
  failure : Option TriageError
deriving DecidableEq

/-- Modelled from the spec: the `processing → dispatched` transition
(section 4.5).  The human-supplied resource identifier must be present in
the current decision candidate list and still eligible against the live
registry; stale selections fail with `ResourceNoLongerAvailableError`,
confirmation of a terminal request fails with
`InvalidStateTransitionError`, and in either failure the state and the
registry are unchanged. -/
def confirm (registry : List Resource) (req : NeedRequest)
    (lr : LifecycleRequest) (rid : String) : ConfirmOutcome :=
  if lr.state = ReqState.processing then
    match lr.decision with
    | some d =>
        if (d.candidates.map fun c => c.resourceId).contains rid then
          match registry.find? fun r => r.id == rid with
          | some r =>
              if eligible r then
                { request :=
                    { lr with
                      state := ReqState.dispatched
                      audit := lr.audit ++ [⟨lr.id, "dispatched"⟩] }
                  registry := commitResource registry rid (commitDelta req)
                  failure := none }
              else
                { request := lr, registry := registry
                  failure := some TriageError.ResourceNoLongerAvailableError }
          | none =>
              { request := lr, registry := registry
                failure := some TriageError.ResourceNoLongerAvailableError }
        else
          { request := lr, registry := registry
            failure := some TriageError.ResourceNoLongerAvailableError }
    | none =>
        { request := lr, registry := registry
          failure := some TriageError.InvalidStateTransitionError }
  else
    { request := lr, registry := registry
      failure := some TriageError.InvalidStateTransitionError }

/-- Modelled from the spec: the `processing → cancelled` transition
(section 4.5), always permitted from `processing` and idempotent if
already cancelled, producing no duplicate audit record. -/
def cancel (lr : LifecycleRequest) : LifecycleRequest × Option TriageError :=
  if lr.state = ReqState.processing then
    ({ lr with
        state := ReqState.cancelled
        audit := lr.audit ++ [⟨lr.id, "cancelled"⟩] }, none)
  else if lr.state = ReqState.cancelled then (lr, none)
  else (lr, some TriageError.InvalidStateTransitionError)

/-- The transition relation the lifecycle admits: stay in place, or one of
`pending → processing`, `processing → dispatched`,
`processing → cancelled` (section 4.5). -/
def allowedStep (s t : ReqState) : Prop :=
  s = t ∨ (s = ReqState.pending ∧ t = ReqState.processing)
    ∨ (s = ReqState.processing ∧ t = ReqState.dispatched)
    ∨ (s = ReqState.processing ∧ t = ReqState.cancelled)

end Triage

namespace TriageDemo

/-- Shape of the triage response the demo TriagePage variant works with:
the fields the hard-coded demo response sets
(src/unnamed/part_002 lines 16 to 37). -/
structure TriageResponse where
  request_id : String
  urgency_level : String
  urgency_score : ℚ
  explanation : List String
  recommended_resources : List String
  demo_mode : Bool
deriving DecidableEq

/-- The hard-coded demo fallback response of the TriagePage variant
(src/unnamed/part_002 lines 16 to 37); `now` stands for `Date.now()` used
to build the request identifier. -/
def demoResponse (now : Nat) : TriageResponse :=
  { request_id := "demo-" ++ toString now
    urgency_level := "CRITICAL"
    urgency_score := 92
    explanation :=
      [ "High-risk emergency language detected"
      , "Potential life-threatening situation"
      , "Vulnerable individuals may be involved"
      , "Immediate response required" ]
    recommended_resources :=
      [ "Nearest ambulance service"
      , "Emergency hospital within 5 km"
      , "Local disaster response NGO" ]
    demo_mode := true }

/-- The mutation function of the demo TriagePage variant
(src/unnamed/part_002 lines 39 to 48): try the real backend and on any
thrown error resolve successfully with the demo response. -/
def mutationFn (now : Nat) (backend : Except String TriageResponse) :
    TriageResponse :=
  match backend with
  | Except.ok r => r
  | Except.error _ => demoResponse now

/-- The navigation target of the onSuccess handler
(src/unnamed/part_002 line 62). -/
def onSuccessNavigate (r : TriageResponse) : String :=
  "/requests/" ++ r.request_id

end TriageDemo

namespace Triage

/-- C1: for every request processed by the Matching Coordinator, on every
scoring path (rule-based, AI-assisted, or fallback), the resulting
`RequestDecision` has `human_action_required = true`; no branch of the
engine produces a decision with `human_action_required = false`. -/
theorem human_action_always_required (cfg : EngineConfig) (mode : MatchMode)
    (req : NeedRequest) (cands : List Resource)
    (ai : Except AiFailure AiResponse) :
    (matchDecision cfg mode req cands ai).human_action_required = true := by
  unfold matchDecision
  split
  · rfl
  · cases ai with
    | error f => rfl
    | ok resp =>
        dsimp only
        split
        · rfl
        · rfl

/-- C5: the Rule-Based Scorer is deterministic, producing identical
orderings on identical `NeedRequest` and `Resource` snapshots, and its
output is sorted by `candBefore`: descending final score with ties broken
by resource identifier ascending. -/
theorem rule_based_deterministic (cfg : EngineConfig)
    (req req2 : NeedRequest) (rs rs2 : List Resource)
    (hreq : req = req2) (hrs : rs = rs2) :
    ruleBasedScorer cfg req rs = ruleBasedScorer cfg req2 rs2 ∧
    List.Sorted candBefore (ruleBasedScorer cfg req rs) := by
  subst hreq
  subst hrs
  exact ⟨rfl, List.sorted_insertionSort candBefore _⟩

/-- Witness request for the determinism claim. -/
def detRequest : NeedRequest :=
  { id := "REQ_1"
    needs := [⟨"medical", none, 1⟩]
    peopleAffected := some 2
    locationResolved := true
    urgency := 1
    extractionConfidence := 1 }

/-- Witness resource for the determinism claim. -/
def detResource : Resource :=
  { id := "AMB_1"
    rtype := "ambulance"
    capabilities := ["medical"]
    availability := Availability.available
    capacity := 4
    committedLoad := 0
    verified := true
    distKm := some 2 }

/-- Witness configuration used by the concrete checks. -/
def detConfig : EngineConfig :=
  { weights := defaultWeights
    aiEnabled := true
    minConfidence := 0
    confidenceFloor := 1
    nearKm := 5
    farKm := 50 }

/-- Witness for C5: the determinism theorem applied at a concrete request
and resource snapshot. -/
theorem rule_based_deterministic_check :
    ruleBasedScorer detConfig detRequest [detResource]
      = ruleBasedScorer detConfig detRequest [detResource] ∧
    List.Sorted candBefore (ruleBasedScorer detConfig detRequest [detResource]) :=
  rule_based_deterministic detConfig detRequest detRequest
    [detResource] [detResource] rfl rfl

/-- Scenario request of section 8: needs medical with confidence 0.92,
five people affected. -/
def medRequest : NeedRequest :=
  { id := "REQ_1023"
    needs := [⟨"medical", none, 92/100⟩]
    peopleAffected := some 5
    locationResolved := true
    urgency := 92/100
    extractionConfidence := 92/100 }

/-- Scenario resource of section 8: one available candidate, capacity 6,
capability medical, within the near-distance saturation threshold. -/
def medResource : Resource :=
  { id := "AMB_021"
    rtype := "ambulance"
    capabilities := ["medical", "transport"]
    availability := Availability.available
    capacity := 6
    committedLoad := 0
    verified := true
    distKm := some 2 }

/-- C4: the Rule-Based final score is the weighted sum
0.40·suitability + 0.30·availability + 0.15·capacity + 0.15·distance,
the default weights sum to 1.0, and on the section 8 scenario (needs
medical at confidence 0.92, five people affected, one available candidate
of capacity 6 with capability medical at near-distance saturation) all four
components are 1 and the final score is exactly 1. -/
theorem final_score_weighted_sum :
    (∀ cfg req r,
      (scoreResource cfg req r).finalScore =
        cfg.weights.suitability * (scoreResource cfg req r).suitability
        + cfg.weights.availability * (scoreResource cfg req r).availability
        + cfg.weights.capacity * (scoreResource cfg req r).capacity
        + cfg.weights.distance * (scoreResource cfg req r).distance) ∧
    weightsValid defaultWeights ∧
    (scoreResource detConfig medRequest medResource).suitability = 1 ∧
    (scoreResource detConfig medRequest medResource).availability = 1 ∧
    (scoreResource detConfig medRequest medResource).capacity = 1 ∧
    (scoreResource detConfig medRequest medResource).distance = 1 ∧
    (scoreResource detConfig medRequest medResource).finalScore = 1 := by
  refine ⟨fun cfg req r => rfl, by norm_num [weightsValid, defaultWeights],
    ?_, ?_, ?_, ?_, ?_⟩
  · show suitabilityScore medRequest medResource = 1
    norm_num [suitabilityScore, needTypes, countMatched, medRequest,
      medResource]
  · rfl
  · show capacityScore medRequest medResource = 1
    norm_num [capacityScore, medRequest, medResource, Resource.remaining]
  · show distanceScore detConfig medResource.distKm = 1
    norm_num [distanceScore, detConfig, medResource]
  · show (scoreResource detConfig medRequest medResource).finalScore = 1
    unfold scoreResource
    norm_num [suitabilityScore, needTypes, countMatched, availabilityScore,
      capacityScore, distanceScore, Resource.remaining, medRequest,
      medResource, detConfig, defaultWeights]

/-- C8: AI-origin candidates are validated against the input candidate
identifier set: every accepted candidate references an identifier the
scorer was given, and every candidate referencing an unknown identifier is
rejected, dropped from the accepted list, and recorded with an audit
note. -/
theorem ai_validation_drops_unknown (ids : List String)
    (cs : List MatchCandidate) :
    (∀ c ∈ (validateAiCandidates ids cs).1, c.resourceId ∈ ids) ∧
    (∀ c ∈ cs, c.resourceId ∉ ids →
      c ∉ (validateAiCandidates ids cs).1 ∧
      droppedNote c.resourceId ∈ (validateAiCandidates ids cs).2) := by
  constructor
  · intro c hc
    have h := (List.mem_filter.mp hc).2
    simpa [List.contains] using h
  · intro c hc hnot
    have hcontains : ids.contains c.resourceId = false := by
      simpa [List.contains] using hnot
    constructor
    · intro hmem
      have h := (List.mem_filter.mp hmem).2
      rw [hcontains] at h
      exact Bool.noConfusion h
    · refine List.mem_map.mpr ⟨c, ?_, rfl⟩
      refine List.mem_filter.mpr ⟨hc, ?_⟩
      rw [hcontains]
      rfl

/-- Witness AI candidate referencing a supplied identifier. -/
def aiCandKnown : MatchCandidate :=
  { resourceId := "AMB_021"
    suitability := 1, availability := 1, capacity := 1, distance := 1
    finalScore := 1
    reasoning := ["supplied candidate"]
    tradeOffs := []
    confidence := Confidence.high
    source := ScoreSource.ai_assisted }

/-- Witness AI candidate referencing a fabricated identifier. -/
def aiCandUnknown : MatchCandidate :=
  { aiCandKnown with resourceId := "GHOST_99" }

/-- Witness for C8: on a concrete response, the fabricated candidate is not
in the supplied identifier set, is dropped from the accepted list, and
leaves an audit note. -/
theorem ai_validation_drops_unknown_check :
    aiCandUnknown.resourceId ∉ ["AMB_021"] ∧
    aiCandUnknown ∉
      (validateAiCandidates ["AMB_021"] [aiCandKnown, aiCandUnknown]).1 ∧
    droppedNote aiCandUnknown.resourceId ∈
      (validateAiCandidates ["AMB_021"] [aiCandKnown, aiCandUnknown]).2 := by
  have hmem : aiCandUnknown ∈ [aiCandKnown, aiCandUnknown] :=
    List.mem_cons_of_mem _ (List.mem_singleton.mpr rfl)
  have hid : aiCandUnknown.resourceId ∉ ["AMB_021"] := by
    simp [aiCandUnknown, aiCandKnown]
  have h := (ai_validation_drops_unknown ["AMB_021"]
    [aiCandKnown, aiCandUnknown]).2 aiCandUnknown hmem hid
  exact ⟨hid, h.1, h.2⟩

/-- The candidate produced for a resource carries that resource's
identifier. -/
theorem scoreResource_resourceId (cfg : EngineConfig) (req : NeedRequest)
    (r : Resource) : (scoreResource cfg req r).resourceId = r.id := rfl

/-- Every candidate emitted by the Rule-Based Scorer references a resource
of its input list. -/
theorem mem_ruleBasedScorer (cfg : EngineConfig) (req : NeedRequest)
    (rs : List Resource) (c : MatchCandidate)
    (hc : c ∈ ruleBasedScorer cfg req rs) :
    ∃ r, r ∈ rs ∧ r.id = c.resourceId := by
  unfold ruleBasedScorer at hc
  rw [List.mem_insertionSort] at hc
  rcases List.mem_map.mp hc with ⟨r, hr, he⟩
  exact ⟨r, (List.mem_filter.mp hr).1, by rw [← he]; rfl⟩

/-- Every candidate of a Coordinator decision references a resource of the
candidate set the Coordinator was given, on every path. -/
theorem decision_candidate_source (cfg : EngineConfig) (mode : MatchMode)
    (req : NeedRequest) (cands : List Resource)
    (ai : Except AiFailure AiResponse) (c : MatchCandidate)
    (hc : c ∈ (matchDecision cfg mode req cands ai).candidates) :
    ∃ r, r ∈ cands ∧ r.id = c.resourceId := by
  unfold matchDecision at hc
  split at hc
  · exact mem_ruleBasedScorer cfg req cands c hc
  · split at hc
    · exact mem_ruleBasedScorer cfg req cands c hc
    · split at hc
      · exact mem_ruleBasedScorer cfg req cands c hc
      · simp only [validateAiCandidates] at hc
        have h := (List.mem_filter.mp hc).2
        have hmem : c.resourceId ∈ cands.map fun r => r.id := by
          simpa [List.contains] using h
        rcases List.mem_map.mp hmem with ⟨r, hr, he⟩
        exact ⟨r, hr, he⟩

/-- C2: the Resource Registry Accessor returns only resources with
`verified = true` and availability other than `unavailable`; consequently
every candidate of any `RequestDecision` built over the accessor output
references a resource that was verified at scoring time. -/
theorem candidates_verified (registry : List Resource) (needs : List String)
    (over : Bool) :
    (∀ r ∈ candidates registry needs over,
       r.verified = true ∧ r.availability ≠ Availability.unavailable) ∧
    (∀ cfg mode req ai c,
       c ∈ (matchDecision cfg mode req (candidates registry needs over)
          ai).candidates →
       ∃ r, r ∈ candidates registry needs over ∧ r.id = c.resourceId
         ∧ r.verified = true) := by
  have hel : ∀ r ∈ candidates registry needs over,
      r.verified = true ∧ r.availability ≠ Availability.unavailable := by
    intro r hr
    have h := (List.mem_filter.mp hr).2
    simp only [Bool.and_eq_true, Bool.not_eq_true', beq_eq_false_iff_ne,
      ne_eq] at h
    exact ⟨h.1.1, h.1.2⟩
  refine ⟨hel, ?_⟩
  intro cfg mode req ai c hc
  rcases decision_candidate_source cfg mode req _ ai c hc with ⟨r, hr, he⟩
  exact ⟨r, hr, he, (hel r hr).1⟩

/-- Witness registry: one verified, available resource next to one
unverified one. -/
def ghostResource : Resource :=
  { detResource with id := "GHOST_1", verified := false }

/-- Witness registry for the accessor claim. -/
def wRegistry : List Resource := [detResource, ghostResource]

/-- Witness for C2: at the concrete registry, the verified resource passes
the accessor filter, is verified and not unavailable, and the candidate
built from it in a concrete decision traces back to a verified accessor
resource. -/
theorem candidates_verified_check :
    detResource ∈ candidates wRegistry ["medical"] false ∧
    detResource.verified = true ∧
    detResource.availability ≠ Availability.unavailable ∧
    scoreResource detConfig detRequest detResource ∈
      (matchDecision detConfig MatchMode.forced_rule detRequest
        (candidates wRegistry ["medical"] false)
        (Except.error AiFailure.timeout)).candidates ∧
    ∃ r, r ∈ candidates wRegistry ["medical"] false ∧
      r.id = (scoreResource detConfig detRequest detResource).resourceId
      ∧ r.verified = true := by
  have h1 : detResource ∈ candidates wRegistry ["medical"] false :=
    List.mem_filter.mpr ⟨List.mem_cons_self _ _, rfl⟩
  have h2 : (matchDecision detConfig MatchMode.forced_rule detRequest
      (candidates wRegistry ["medical"] false)
      (Except.error AiFailure.timeout)).candidates
      = [scoreResource detConfig detRequest detResource] := rfl
  have h3 : scoreResource detConfig detRequest detResource ∈
      (matchDecision detConfig MatchMode.forced_rule detRequest
        (candidates wRegistry ["medical"] false)
        (Except.error AiFailure.timeout)).candidates := by
    rw [h2]
    exact List.mem_singleton.mpr rfl
  have hmain := candidates_verified wRegistry ["medical"] false
  exact ⟨h1, (hmain.1 detResource h1).1, (hmain.1 detResource h1).2, h3,
    hmain.2 detConfig MatchMode.forced_rule detRequest
      (Except.error AiFailure.timeout) _ h3⟩

/-- C3: whenever the AI path was attempted and fails in any of its three
failure modes (timeout, malformed output, or overall confidence below the
configured floor), the Coordinator returns the decision the Rule-Based
Scorer alone would have produced on the same inputs, on the rule-based
path, with the fallback reason recorded. -/
theorem ai_failure_falls_back (cfg : EngineConfig) (mode : MatchMode)
    (req : NeedRequest) (cands : List Resource)
    (hpath : ¬ useRulePath cfg mode req) :
    (∀ f, matchDecision cfg mode req cands (Except.error f)
        = { requestId := req.id
            candidates := ruleBasedScorer cfg req cands
            path := ScoreSource.rule_based
            human_action_required := true
            fallbackReason := some (fallbackReasonText f)
            auditNotes := [] }) ∧
    (∀ resp : AiResponse, resp.overallConfidence < cfg.confidenceFloor →
        matchDecision cfg mode req cands (Except.ok resp)
        = { requestId := req.id
            candidates := ruleBasedScorer cfg req cands
            path := ScoreSource.rule_based
            human_action_required := true
            fallbackReason := some ("ai confidence below floor")
            auditNotes := [] }) := by
  constructor
  · intro f
    unfold matchDecision
    rw [if_neg hpath]
  · intro resp hconf
    unfold matchDecision
    rw [if_neg hpath]
    dsimp only
    rw [if_pos hconf]

/-- Witness AI response whose overall confidence is below the floor. -/
def lowResp : AiResponse := { recommendations := [], overallConfidence := 0 }

/-- Witness for C3: at a concrete configuration with the AI path enabled
and attempted, a timeout and a below-floor response both yield exactly the
rule-based decision tagged with a fallback reason. -/
theorem ai_failure_falls_back_check :
    ¬ useRulePath detConfig MatchMode.auto detRequest ∧
    lowResp.overallConfidence < detConfig.confidenceFloor ∧
    matchDecision detConfig MatchMode.auto detRequest [detResource]
        (Except.error AiFailure.timeout)
      = { requestId := detRequest.id
          candidates := ruleBasedScorer detConfig detRequest [detResource]
          path := ScoreSource.rule_based
          human_action_required := true
          fallbackReason := some (fallbackReasonText AiFailure.timeout)
          auditNotes := [] } ∧
    matchDecision detConfig MatchMode.auto detRequest [detResource]
        (Except.ok lowResp)
      = { requestId := detRequest.id
          candidates := ruleBasedScorer detConfig detRequest [detResource]
          path := ScoreSource.rule_based
          human_action_required := true
          fallbackReason := some ("ai confidence below floor")
          auditNotes := [] } := by
  have hpath : ¬ useRulePath detConfig MatchMode.auto detRequest := by
    intro h
    rcases h with h | h | h
    · exact MatchMode.noConfusion h
    · exact Bool.noConfusion h
    · exact absurd h (by decide)
  have hconf : lowResp.overallConfidence < detConfig.confidenceFloor := by
    decide
  have hmain := ai_failure_falls_back detConfig MatchMode.auto detRequest
    [detResource] hpath
  exact ⟨hpath, hconf, hmain.1 AiFailure.timeout, hmain.2 lowResp hconf⟩

/-- C9: cancellation is idempotent: cancelling an already cancelled request
succeeds with no error, leaves the record (state and audit log) unchanged,
and a second cancellation after a successful one adds no duplicate audit
record beyond the original cancellation record. -/
theorem cancel_idempotent (lr : LifecycleRequest)
    (h : lr.state = ReqState.cancelled)
    (lp : LifecycleRequest) (hp : lp.state = ReqState.processing) :
    cancel lr = (lr, none) ∧
    (cancel (cancel lp).1).1 = (cancel lp).1 ∧
    (cancel (cancel lp).1).2 = none ∧
    (cancel (cancel lp).1).1.audit = lp.audit ++ [⟨lp.id, "cancelled"⟩] := by
  constructor
  · unfold cancel
    rw [if_neg (by rw [h]; intro hx; exact ReqState.noConfusion hx), if_pos h]
  · unfold cancel
    rw [if_pos hp]
    constructor
    · rfl
    · constructor
      · rfl
      · rfl

/-- Witness cancelled lifecycle record. -/
def wCancelled : LifecycleRequest :=
  { id := "REQ_C", state := ReqState.cancelled, decision := none
    audit := [⟨"REQ_C", "cancelled"⟩] }

/-- Witness processing lifecycle record. -/
def wProcessing : LifecycleRequest :=
  { id := "REQ_P", state := ReqState.processing, decision := none
    audit := [] }

/-- Witness for C9: idempotent cancellation at concrete records. -/
theorem cancel_idempotent_check :
    cancel wCancelled = (wCancelled, none) ∧
    (cancel (cancel wProcessing).1).1 = (cancel wProcessing).1 ∧
    (cancel (cancel wProcessing).1).2 = none ∧
    (cancel (cancel wProcessing).1).1.audit
      = wProcessing.audit ++ [⟨wProcessing.id, "cancelled"⟩] :=
  cancel_idempotent wCancelled rfl wProcessing rfl

/-- C6: the lifecycle admits exactly the transitions
`pending → processing`, `processing → dispatched` and
`processing → cancelled` (besides staying in place); the state space has no
state beyond the four, and confirming a request already in a terminal state
(`dispatched` or `cancelled`) fails with `InvalidStateTransitionError`,
leaving the record and the registry unchanged. -/
theorem lifecycle_transitions (registry : List Resource) (req : NeedRequest)
    (lr : LifecycleRequest) (d : RequestDecision) (rid : String) :
    (∀ s : ReqState, s = ReqState.pending ∨ s = ReqState.processing
      ∨ s = ReqState.dispatched ∨ s = ReqState.cancelled) ∧
    allowedStep lr.state (produceDecision lr d).1.state ∧
    allowedStep lr.state (confirm registry req lr rid).request.state ∧
    allowedStep lr.state (cancel lr).1.state ∧
    (lr.state = ReqState.dispatched ∨ lr.state = ReqState.cancelled →
      (confirm registry req lr rid).failure
          = some TriageError.InvalidStateTransitionError ∧
      (confirm registry req lr rid).request = lr ∧
      (confirm registry req lr rid).registry = registry) := by
  refine ⟨fun s => by cases s <;> simp, ?_, ?_, ?_, ?_⟩
  · unfold produceDecision allowedStep
    split
    · rename_i h
      split
      · exact Or.inl rfl
      · exact Or.inr (Or.inl ⟨h, rfl⟩)
    · exact Or.inl rfl
  · unfold confirm allowedStep
    split
    · rename_i h
      split
      · split
        · split
          · split
            · exact Or.inr (Or.inr (Or.inl ⟨h, rfl⟩))
            · exact Or.inl rfl
          · exact Or.inl rfl
        · exact Or.inl rfl
      · exact Or.inl rfl
    · exact Or.inl rfl
  · unfold cancel allowedStep
    split
    · rename_i h
      exact Or.inr (Or.inr (Or.inr ⟨h, rfl⟩))
    · split
      · exact Or.inl rfl
      · exact Or.inl rfl
  · intro h
    unfold confirm
    rw [if_neg (by rcases h with h | h <;> rw [h] <;>
      exact fun hx => ReqState.noConfusion hx)]
    exact ⟨rfl, rfl, rfl⟩

/-- Witness dispatched lifecycle record. -/
def wDispatched : LifecycleRequest :=
  { id := "REQ_D", state := ReqState.dispatched, decision := none
    audit := [] }

/-- Witness for C6: at concrete records, confirming a dispatched request
fails with `InvalidStateTransitionError` with everything unchanged, and the
concrete transitions taken stay within the admitted relation. -/
theorem lifecycle_transitions_check :
    allowedStep wDispatched.state
      (confirm wRegistry detRequest wDispatched ("AMB_1")).request.state ∧
    allowedStep wProcessing.state (cancel wProcessing).1.state ∧
    (confirm wRegistry detRequest wDispatched ("AMB_1")).failure
        = some TriageError.InvalidStateTransitionError ∧
    (confirm wRegistry detRequest wDispatched ("AMB_1")).request
        = wDispatched ∧
    (confirm wRegistry detRequest wDispatched ("AMB_1")).registry
        = wRegistry := by
  have h1 := lifecycle_transitions wRegistry detRequest wDispatched
    ⟨"REQ_D", [], ScoreSource.rule_based, true, none, []⟩ "AMB_1"
  have h2 := lifecycle_transitions wRegistry detRequest wProcessing
    ⟨"REQ_P", [], ScoreSource.rule_based, true, none, []⟩ "AMB_1"
  have hterm := h1.2.2.2.2 (Or.inl rfl)
  exact ⟨h1.2.2.1, h2.2.2.2.1, hterm.1, hterm.2.1, hterm.2.2⟩

/-- C7: a confirmation attempt on a `processing` request whose supplied
resource identifier is not in the active decision candidate list, or whose
resource is no longer eligible at re-validation against the live registry,
fails with `ResourceNoLongerAvailableError`, leaves the request in
`processing`, and commits nothing to the registry. -/
theorem stale_confirmation_fails (registry : List Resource)
    (req : NeedRequest) (lr : LifecycleRequest) (rid : String)
    (d : RequestDecision)
    (hstate : lr.state = ReqState.processing)
    (hdec : lr.decision = some d)
    (hbad : (d.candidates.map fun c => c.resourceId).contains rid = false
      ∨ ∀ r ∈ registry, r.id = rid → eligible r = false) :
    (confirm registry req lr rid).failure
        = some TriageError.ResourceNoLongerAvailableError ∧
    (confirm registry req lr rid).request = lr ∧
    (confirm registry req lr rid).request.state = ReqState.processing ∧
    (confirm registry req lr rid).registry = registry := by
  unfold confirm
  rw [if_pos hstate, hdec]
  dsimp only
  rcases hbad with hb | hb
  · rw [if_neg (by rw [hb]; exact Bool.noConfusion)]
    exact ⟨rfl, rfl, hstate, rfl⟩
  · by_cases hcont : (d.candidates.map fun c => c.resourceId).contains rid
      = true
    · rw [if_pos hcont]
      cases hf : registry.find? fun r => r.id == rid with
      | none => exact ⟨rfl, rfl, hstate, rfl⟩
      | some r =>
          have hrid : r.id = rid := by
            have := List.find?_some hf
            simpa using this
          have helig : eligible r = false :=
            hb r (List.mem_of_find?_eq_some hf) hrid
          dsimp only
          rw [if_neg (by rw [helig]; exact Bool.noConfusion)]
          exact ⟨rfl, rfl, hstate, rfl⟩
    · rw [if_neg hcont]
      exact ⟨rfl, rfl, hstate, rfl⟩

/-- Witness decision whose only candidate is another resource. -/
def wDecision : RequestDecision :=
  { requestId := "REQ_P"
    candidates := [aiCandKnown]
    path := ScoreSource.rule_based
    human_action_required := true
    fallbackReason := none
    auditNotes := [] }

/-- Witness processing record holding the active decision. -/
def wProcessingDec : LifecycleRequest :=
  { id := "REQ_P", state := ReqState.processing
    decision := some wDecision, audit := [] }

/-- Witness for C7: confirming a resource outside the active decision
candidate list fails with `ResourceNoLongerAvailableError`, the request
stays `processing` and the registry is untouched. -/
theorem stale_confirmation_fails_check :
    (confirm wRegistry detRequest wProcessingDec ("GHOST_1")).failure
        = some TriageError.ResourceNoLongerAvailableError ∧
    (confirm wRegistry detRequest wProcessingDec ("GHOST_1")).request
        = wProcessingDec ∧
    (confirm wRegistry detRequest wProcessingDec ("GHOST_1")).request.state
        = ReqState.processing ∧
    (confirm wRegistry detRequest wProcessingDec ("GHOST_1")).registry
        = wRegistry :=
  stale_confirmation_fails wRegistry detRequest wProcessingDec ("GHOST_1")
    wDecision rfl rfl (Or.inl rfl)

end Triage

namespace TriageDemo

/-- C10: in the demo-fallback TriagePage variant, any backend error makes
the mutation resolve successfully with the fixed hard-coded demo response
(demo_mode true, urgency level CRITICAL, three fabricated recommended
resources), and the onSuccess handler navigates to that demo request page;
a backend triage failure is never surfaced as a mutation error. -/
theorem demo_fallback_on_backend_error :
    (∀ now e, mutationFn now (Except.error e) = demoResponse now) ∧
    (∀ now, (demoResponse now).demo_mode = true) ∧
    (∀ now, (demoResponse now).urgency_level = "CRITICAL") ∧
    (∀ now, (demoResponse now).recommended_resources.length = 3) ∧
    (∀ now e, onSuccessNavigate (mutationFn now (Except.error e))
        = "/requests/" ++ (demoResponse now).request_id) ∧
    (∀ now, (demoResponse now).request_id = "demo-" ++ toString now) :=
  ⟨fun _ _ => rfl, fun _ => rfl, fun _ => rfl, fun _ => rfl,
   fun _ _ => rfl, fun _ => rfl⟩

end TriageDemo
